/-
Verification of the coupon selection engine (src/main.py) against its
natural-language specification.

Shallow embedding conventions:
* Python `float` money amounts are modelled as exact rationals (`ℚ`);
  `round(x, 2)` is modelled as exact round-half-to-even at cent
  granularity on rationals.
* Python `int` is modelled as `ℤ`; `datetime` values are modelled as
  integers (e.g. epoch seconds) — only their linear order is used.
* The module-level state read by `best_coupon` (the clock `now_utc()`,
  the coupon store `COUPONS`, the usage store `USAGE`) is passed
  explicitly: `t` is the value `now_utc()` returned for this call,
  `coupons` is the list of stored coupons in dictionary (insertion)
  order, and `usage code userId` is `USAGE.get(code, {}).get(userId, 0)`.
* Python truthiness on optional list fields (`if e.allowedUserTiers:`)
  is modelled by `listActive`: `None` and the empty list are both falsy.
-/
import Mathlib

namespace CouponEngine

/-- `DiscountType` enum of src/main.py. -/
inductive DiscountType where
  | FLAT
  | PERCENT
deriving DecidableEq

/-- `Eligibility` model of src/main.py (all fields optional; pydantic
defaults: `None` everywhere, `firstOrderOnly = False`). `firstOrderOnly`
is `Optional[bool] = False` in Python and is only ever read under
truthiness, so `None` and `False` coincide; it is modelled as `Bool`. -/
structure Eligibility where
  allowedUserTiers : Option (List String) := none
  minLifetimeSpend : Option ℚ := none
  minOrdersPlaced : Option ℤ := none
  firstOrderOnly : Bool := false
  allowedCountries : Option (List String) := none
  minCartValue : Option ℚ := none
  applicableCategories : Option (List String) := none
  excludedCategories : Option (List String) := none
  minItemsCount : Option ℤ := none
deriving DecidableEq

/-- `Coupon` model of src/main.py (the unused `description` field is
omitted). Construction-time validation is modelled by `mkCoupon`. -/
structure Coupon where
  code : String
  discountType : DiscountType
  discountValue : ℚ
  maxDiscountAmount : Option ℚ := none
  startDate : ℤ
  endDate : ℤ
  usageLimitPerUser : ℤ
  eligibility : Eligibility := {}
deriving DecidableEq

/-- `CartItem` model of src/main.py. -/
structure CartItem where
  productId : String
  category : String
  unitPrice : ℚ
  quantity : ℤ
deriving DecidableEq

/-- `Cart` model of src/main.py. -/
structure Cart where
  items : List CartItem
deriving DecidableEq

/-- `Cart.total_value` of src/main.py. -/
def Cart.total_value (cart : Cart) : ℚ :=
  (cart.items.map (fun i => i.unitPrice * (i.quantity : ℚ))).sum

/-- `Cart.total_items_count` of src/main.py. -/
def Cart.total_items_count (cart : Cart) : ℤ :=
  (cart.items.map (fun i => i.quantity)).sum

/-- `Cart.categories` of src/main.py: the distinct categories
(`list({item.category for item in self.items})`). -/
def Cart.categories (cart : Cart) : List String :=
  (cart.items.map (fun i => i.category)).dedup

/-- `UserInfo` model of src/main.py. -/
structure UserInfo where
  userId : String
  userTier : Option String := none
  country : Option String := none
  lifetimeSpend : ℚ := 0
  ordersPlaced : ℤ := 0
deriving DecidableEq

/-- Python truthiness of an optional list: `None` and `[]` are falsy. -/
def listActive : Option (List String) → Bool
  | none => false
  | some l => !l.isEmpty

/-- `is_within_validity(coupon, ref)` of src/main.py with the reference
time `t` passed explicitly: `coupon.startDate <= t <= coupon.endDate`. -/
def is_within_validity (coupon : Coupon) (t : ℤ) : Bool :=
  decide (coupon.startDate ≤ t ∧ t ≤ coupon.endDate)

/-- `check_eligibility(coupon, user, cart)` of src/main.py. Each Python
early `return False` becomes one conjunct of a short-circuiting `&&`
chain, in source order. -/
def check_eligibility (coupon : Coupon) (user : UserInfo) (cart : Cart) : Bool :=
  let e := coupon.eligibility
  let tierOk := !listActive e.allowedUserTiers ||
    ((e.allowedUserTiers.getD []).map String.toUpper).contains
      ((user.userTier.getD "").toUpper)
  let countryOk := !listActive e.allowedCountries ||
    ((e.allowedCountries.getD []).map String.toUpper).contains
      ((user.country.getD "").toUpper)
  let firstOk := !e.firstOrderOnly || decide (user.ordersPlaced = 0)
  let ordersOk := match e.minOrdersPlaced with
    | none => true
    | some m => decide (m ≤ user.ordersPlaced)
  let spendOk := match e.minLifetimeSpend with
    | none => true
    | some m => decide (m ≤ user.lifetimeSpend)
  let cartValueOk := match e.minCartValue with
    | none => true
    | some m => decide (m ≤ cart.total_value)
  let itemsOk := match e.minItemsCount with
    | none => true
    | some m => decide (m ≤ cart.total_items_count)
  let cats := cart.categories.map String.toUpper
  let applicableOk := !listActive e.applicableCategories ||
    cats.any (fun c =>
      ((e.applicableCategories.getD []).map String.toUpper).contains c)
  let excludedOk := !listActive e.excludedCategories ||
    cats.all (fun c =>
      !((e.excludedCategories.getD []).map String.toUpper).contains c)
  tierOk && countryOk && firstOk && ordersOk && spendOk && cartValueOk &&
    itemsOk && applicableOk && excludedOk

/-- `calculate_discount(coupon, cart)` of src/main.py. -/
def calculate_discount (coupon : Coupon) (cart : Cart) : ℚ :=
  let cartValue := cart.total_value
  let discount : ℚ :=
    match coupon.discountType with
    | DiscountType.FLAT => coupon.discountValue
    | DiscountType.PERCENT =>
        let d := cartValue * (coupon.discountValue / 100)
        match coupon.maxDiscountAmount with
        | some cap => min d cap
        | none => d
  max 0 (min discount cartValue)

/-- Floor of a rational, computed directly on the normalised
numerator/denominator pair. -/
def ratFloor (q : ℚ) : ℤ := q.num.fdiv q.den

/-- Round-half-to-even to the nearest integer, the tie-breaking rule of
Python's builtin `round`. -/
def roundHalfEven (q : ℚ) : ℤ :=
  let n := ratFloor q
  let f := q - (n : ℚ)
  if f < 1/2 then n
  else if (1 : ℚ)/2 < f then n + 1
  else if n % 2 = 0 then n else n + 1

/-- `round(q, 2)` of src/main.py modelled on exact rationals. -/
def round2 (q : ℚ) : ℚ := ((roundHalfEven (q * 100) : ℤ) : ℚ) / 100

/-- The filter applied to each stored coupon by `best_coupon`
(src/main.py lines 207-219), in source order: validity window, per-user
usage limit (`usage` is the injected usage lookup), eligibility, and
strictly positive raw (unrounded) discount. -/
def passes (t : ℤ) (user : UserInfo) (cart : Cart)
    (usage : String → String → ℤ) (coupon : Coupon) : Bool :=
  is_within_validity coupon t &&
  decide (usage coupon.code user.userId < coupon.usageLimitPerUser) &&
  check_eligibility coupon user cart &&
  decide (0 < calculate_discount coupon cart)

/-- The candidate list built by `best_coupon`: each surviving coupon
paired with its discount rounded to cents. -/
def candidates (t : ℤ) (user : UserInfo) (cart : Cart)
    (usage : String → String → ℤ) (coupons : List Coupon) :
    List (Coupon × ℚ) :=
  (coupons.filter (passes t user cart usage)).map
    (fun c => (c, round2 (calculate_discount c cart)))

/-- Strict comparison matching the sort key of src/main.py line 230:
`(-discount, endDate, code)` in ascending lexicographic order, so
`keyLt a b` means `a` sorts strictly before `b`. -/
def keyLt (a b : Coupon × ℚ) : Bool :=
  decide (b.2 < a.2) ||
  (decide (a.2 = b.2) &&
    (decide (a.1.endDate < b.1.endDate) ||
      (decide (a.1.endDate = b.1.endDate) && decide (a.1.code < b.1.code))))

/-- Left fold keeping the earliest element of minimal key; applied to a
candidate list this is exactly `candidates.sort(key=...)[0]` for
Python's stable sort. -/
def pick1 (b : Coupon × ℚ) (l : List (Coupon × ℚ)) : Coupon × ℚ :=
  l.foldl (fun acc x => if keyLt x acc then x else acc) b

/-- `candidates.sort(...)` followed by `candidates[0]`, returning `none`
on the empty list (src/main.py lines 225-236). -/
def pickBest : List (Coupon × ℚ) → Option (Coupon × ℚ)
  | [] => none
  | b :: l => some (pick1 b l)

/-- The result dict of `best_coupon`: the two projection fields are
present exactly when `evaluate_usage_impact` was requested. -/
structure SelectionResult where
  coupon : Coupon
  computedDiscount : ℚ
  projectedUsageForUser : Option ℤ
  usageLimitPerUser : Option ℤ
deriving DecidableEq

/-- `best_coupon(user, cart, evaluate_usage_impact)` of src/main.py with
the ambient state passed explicitly: `t` is the single `now_utc()`
reading taken at line 206, `coupons` the stored coupons in dictionary
order, `usage` the usage-count lookup. -/
def best_coupon (t : ℤ) (user : UserInfo) (cart : Cart)
    (coupons : List Coupon) (usage : String → String → ℤ)
    (evaluateUsageImpact : Bool) : Option SelectionResult :=
  match pickBest (candidates t user cart usage coupons) with
  | none => none
  | some p =>
      some { coupon := p.1
             computedDiscount := p.2
             projectedUsageForUser :=
               if evaluateUsageImpact
               then some (usage p.1.code user.userId + 1) else none
             usageLimitPerUser :=
               if evaluateUsageImpact
               then some p.1.usageLimitPerUser else none }

/-- Construction-time validation of `Coupon` (pydantic field constraints
of src/main.py lines 29-45: non-empty code of at most 64 characters,
`discountValue > 0`, `maxDiscountAmount > 0` when present,
`usageLimitPerUser >= 1`, and the validator `endDate` strictly after
`startDate`); invalid input yields `none`. -/
def mkCoupon (code : String) (dtype : DiscountType) (dval : ℚ)
    (cap : Option ℚ) (sd ed : ℤ) (lim : ℤ) (elig : Eligibility) :
    Option Coupon :=
  if 1 ≤ code.length ∧ code.length ≤ 64 ∧ 0 < dval ∧
      (∀ m ∈ cap, 0 < m) ∧ 1 ≤ lim ∧ sd < ed
  then some { code := code, discountType := dtype, discountValue := dval,
              maxDiscountAmount := cap, startDate := sd, endDate := ed,
              usageLimitPerUser := lim, eligibility := elig }
  else none

/-- Construction-time validation of `CartItem` (src/main.py lines 55-59:
`unitPrice >= 0`, `quantity >= 1`). -/
def mkCartItem (pid cat : String) (price : ℚ) (qty : ℤ) :
    Option CartItem :=
  if 0 ≤ price ∧ 1 ≤ qty
  then some { productId := pid, category := cat, unitPrice := price,
              quantity := qty }
  else none

/-- Construction-time validation of `UserInfo` (src/main.py lines 75-80:
`lifetimeSpend >= 0`, `ordersPlaced >= 0`). -/
def mkUserInfo (uid : String) (tier country : Option String)
    (spend : ℚ) (orders : ℤ) : Option UserInfo :=
  if 0 ≤ spend ∧ 0 ≤ orders
  then some { userId := uid, userTier := tier, country := country,
              lifetimeSpend := spend, ordersPlaced := orders }
  else none

/-- The discount computation as §4.2 of the spec words it: FLAT gives
`discountValue`; PERCENT gives `cartTotal × (discountValue / 100)`
reduced to `min` with the cap when present; both results are clamped to
`[0, cartTotal]`. -/
def computeDiscount_spec (coupon : Coupon) (cart : Cart) : ℚ :=
  let cartTotal := cart.total_value
  let base : ℚ :=
    match coupon.discountType with
    | DiscountType.FLAT => coupon.discountValue
    | DiscountType.PERCENT =>
        match coupon.maxDiscountAmount with
        | some cap => min (cartTotal * (coupon.discountValue / 100)) cap
        | none => cartTotal * (coupon.discountValue / 100)
  min (max base 0) cartTotal

/-- The strict "better coupon" relation of the spec §4.3 tie-break
chain, relative to a cart: higher rounded discount first, then earlier
end-date, then lexicographically smaller code. -/
def Better (cart : Cart) (c1 c2 : Coupon) : Prop :=
  round2 (calculate_discount c2 cart) < round2 (calculate_discount c1 cart) ∨
  (round2 (calculate_discount c1 cart) = round2 (calculate_discount c2 cart) ∧
    (c1.endDate < c2.endDate ∨
      (c1.endDate = c2.endDate ∧ c1.code < c2.code)))

/-! ### Concrete instances used by the closed theorems -/

/-- A user with no tier, no country, zero history. -/
def userU : UserInfo := { userId := "u" }

/-- A usage lookup that reports zero for every pair. -/
def lookup0 : String → String → ℤ := fun _ _ => 0

/-- A usage lookup reporting one prior use of coupon code "G". -/
def lookupG : String → String → ℤ := fun code _ => if code = "G" then 1 else 0

/-- A one-item cart of total value 0.30. -/
def cartSmall : Cart :=
  { items := [{ productId := "p", category := "x", unitPrice := 3/10,
                quantity := 1 }] }

/-- A one-item cart of total value 200.00. -/
def cartMain : Cart :=
  { items := [{ productId := "p", category := "x", unitPrice := 200,
                quantity := 1 }] }

/-- 1-percent coupon: on `cartSmall` its raw discount 0.003 is positive
but rounds to 0.00. -/
def couponPct1 : Coupon :=
  { code := "A", discountType := DiscountType.PERCENT, discountValue := 1,
    startDate := 0, endDate := 100, usageLimitPerUser := 1 }

/-- 10-percent coupon capped at 15.00 (spec §8 example coupon A). -/
def couponPctCap : Coupon :=
  { code := "A", discountType := DiscountType.PERCENT, discountValue := 10,
    maxDiscountAmount := some 15, startDate := 0, endDate := 100,
    usageLimitPerUser := 1 }

/-- Flat 18.00 coupon (spec §8 example coupon B). -/
def couponFlat18 : Coupon :=
  { code := "B", discountType := DiscountType.FLAT, discountValue := 18,
    startDate := 0, endDate := 100, usageLimitPerUser := 1 }

/-- Flat 20.00 coupon ending at 60 (spec §8 example coupon C). -/
def couponFlat20C : Coupon :=
  { code := "C", discountType := DiscountType.FLAT, discountValue := 20,
    startDate := 0, endDate := 60, usageLimitPerUser := 1 }

/-- Flat 20.00 coupon ending at 70 (spec §8 example coupon D). -/
def couponFlat20D : Coupon :=
  { code := "D", discountType := DiscountType.FLAT, discountValue := 20,
    startDate := 0, endDate := 70, usageLimitPerUser := 1 }

/-- Flat 5.00 coupon with code "G" and per-user limit 1; `lookupG`
blocks it. -/
def couponG : Coupon :=
  { code := "G", discountType := DiscountType.FLAT, discountValue := 5,
    startDate := 0, endDate := 100, usageLimitPerUser := 1 }

/-- Selection result: `couponFlat18` at discount 18, no projection. -/
def resFlat18 : SelectionResult :=
  { coupon := couponFlat18, computedDiscount := 18,
    projectedUsageForUser := none, usageLimitPerUser := none }

/-- Selection result: `couponFlat18` at discount 18 with the usage
projection fields. -/
def resFlat18proj : SelectionResult :=
  { coupon := couponFlat18, computedDiscount := 18,
    projectedUsageForUser := some 1, usageLimitPerUser := some 1 }

/-- Selection result: `couponFlat20C` at discount 20, no projection. -/
def resFlat20C : SelectionResult :=
  { coupon := couponFlat20C, computedDiscount := 20,
    projectedUsageForUser := none, usageLimitPerUser := none }

/-- Selection result: `couponPct1` selected at rounded discount 0.00. -/
def resPct0 : SelectionResult :=
  { coupon := couponPct1, computedDiscount := 0,
    projectedUsageForUser := none, usageLimitPerUser := none }

/-! ### Order lemmas for the sort key -/

theorem keyLt_iff (a b : Coupon × ℚ) :
    keyLt a b = true ↔
      b.2 < a.2 ∨ (a.2 = b.2 ∧ (a.1.endDate < b.1.endDate ∨
        (a.1.endDate = b.1.endDate ∧ a.1.code < b.1.code))) := by
  simp [keyLt]

theorem keyLt_irrefl (a : Coupon × ℚ) : keyLt a a = false := by
  simp [keyLt]

theorem keyLt_trans {a b c : Coupon × ℚ} (h1 : keyLt a b = true)
    (h2 : keyLt b c = true) : keyLt a c = true := by
  rw [keyLt_iff] at h1 h2 ⊢
  rcases h1 with h1 | ⟨h1e, h1r⟩
  · rcases h2 with h2 | ⟨h2e, _⟩
    · exact Or.inl (lt_trans h2 h1)
    · exact Or.inl (h2e ▸ h1)
  · rcases h2 with h2 | ⟨h2e, h2r⟩
    · exact Or.inl (h1e ▸ h2)
    · refine Or.inr ⟨h1e.trans h2e, ?_⟩
      rcases h1r with h1d | ⟨h1d, h1c⟩
      · rcases h2r with h2d | ⟨h2d, _⟩
        · exact Or.inl (lt_trans h1d h2d)
        · exact Or.inl (h2d ▸ h1d)
      · rcases h2r with h2d | ⟨h2d, h2c⟩
        · exact Or.inl (h1d ▸ h2d)
        · exact Or.inr ⟨h1d.trans h2d, lt_trans h1c h2c⟩

theorem keyLt_asymm {a b : Coupon × ℚ} (h : keyLt a b = true) :
    keyLt b a = false := by
  by_contra hc
  rw [Bool.not_eq_false] at hc
  have := keyLt_trans h hc
  rw [keyLt_irrefl] at this
  exact Bool.false_ne_true this

theorem keyLt_total {a b : Coupon × ℚ} (h1 : keyLt a b = false)
    (h2 : keyLt b a = false) :
    a.2 = b.2 ∧ a.1.endDate = b.1.endDate ∧ a.1.code = b.1.code := by
  rw [Bool.eq_false_iff, Ne, keyLt_iff] at h1 h2
  push_neg at h1 h2
  have he : a.2 = b.2 := le_antisymm h1.1 h2.1
  refine ⟨he, ?_⟩
  have h1r := h1.2 he
  have h2r := h2.2 he.symm
  have hd : a.1.endDate = b.1.endDate := le_antisymm h2r.1 h1r.1
  exact ⟨hd, le_antisymm (h2r.2 hd.symm) (h1r.2 hd)⟩

theorem keyLt_congr_left {a b c : Coupon × ℚ} (he : a.2 = b.2)
    (hd : a.1.endDate = b.1.endDate) (hc : a.1.code = b.1.code) :
    keyLt a c = keyLt b c := by
  simp [keyLt, he, hd, hc]

theorem keyLt_le_trans {a b c : Coupon × ℚ} (h1 : keyLt a b = false)
    (h2 : keyLt b c = false) : keyLt a c = false := by
  by_contra hc
  rw [Bool.not_eq_false] at hc
  cases hab : keyLt b a with
  | true =>
      have := keyLt_trans hab hc
      rw [h2] at this
      exact Bool.false_ne_true this
  | false =>
      obtain ⟨he, hd, hco⟩ := keyLt_total h1 hab
      rw [keyLt_congr_left he hd hco, h2] at hc
      exact Bool.false_ne_true hc

/-! ### The fold implementing stable sort + first element -/

theorem pick1_cons (b x : Coupon × ℚ) (l : List (Coupon × ℚ)) :
    pick1 b (x :: l) = pick1 (if keyLt x b then x else b) l := rfl

theorem pick1_mem (b : Coupon × ℚ) (l : List (Coupon × ℚ)) :
    pick1 b l = b ∨ pick1 b l ∈ l := by
  induction l generalizing b with
  | nil => exact Or.inl rfl
  | cons x xs ih =>
      rw [pick1_cons]
      rcases ih (if keyLt x b then x else b) with h | h
      · rw [h]
        by_cases hx : keyLt x b = true
        · simp [hx]
        · rw [Bool.not_eq_true] at hx
          simp [hx]
      · exact Or.inr (List.mem_cons_of_mem x h)

theorem pick1_min (b : Coupon × ℚ) (l : List (Coupon × ℚ)) :
    ∀ x, (x = b ∨ x ∈ l) → keyLt x (pick1 b l) = false := by
  induction l generalizing b with
  | nil =>
      rintro x (rfl | hx)
      · exact keyLt_irrefl x
      · cases hx
  | cons y ys ih =>
      intro x hx
      rw [pick1_cons]
      by_cases hy : keyLt y b = true
      · rw [if_pos hy]
        rcases hx with hxb | hx
        · subst hxb
          exact keyLt_le_trans (keyLt_asymm hy) (ih y y (Or.inl rfl))
        · rcases List.mem_cons.mp hx with hxy | hx
          · subst hxy
            exact ih x x (Or.inl rfl)
          · exact ih y x (Or.inr hx)
      · rw [if_neg hy]
        rw [Bool.not_eq_true] at hy
        rcases hx with hxb | hx
        · subst hxb
          exact ih x x (Or.inl rfl)
        · rcases List.mem_cons.mp hx with hxy | hx
          · subst hxy
            exact keyLt_le_trans hy (ih b b (Or.inl rfl))
          · exact ih b x (Or.inr hx)

theorem pickBest_mem {l : List (Coupon × ℚ)} {p : Coupon × ℚ}
    (h : pickBest l = some p) : p ∈ l := by
  match l with
  | [] => cases h
  | b :: bs =>
      rw [pickBest] at h
      injection h with h
      rcases h ▸ pick1_mem b bs with h1 | h1
      · exact h1 ▸ List.mem_cons_self b bs
      · exact List.mem_cons_of_mem b h1

theorem pickBest_min {l : List (Coupon × ℚ)} {p : Coupon × ℚ}
    (h : pickBest l = some p) : ∀ x ∈ l, keyLt x p = false := by
  match l with
  | [] => cases h
  | b :: bs =>
      rw [pickBest] at h
      injection h with h
      intro x hx
      rw [← h]
      rcases List.mem_cons.mp hx with hxb | hx
      · exact pick1_min b bs x (Or.inl hxb)
      · exact pick1_min b bs x (Or.inr hx)

theorem pickBest_eq_none {l : List (Coupon × ℚ)} :
    pickBest l = none ↔ l = [] := by
  cases l <;> simp [pickBest]

/-! ### Candidate lists -/

theorem mem_candidates {t : ℤ} {user : UserInfo} {cart : Cart}
    {usage : String → String → ℤ} {coupons : List Coupon}
    {p : Coupon × ℚ} :
    p ∈ candidates t user cart usage coupons ↔
      ∃ c, c ∈ coupons ∧ passes t user cart usage c = true ∧
        p = (c, round2 (calculate_discount c cart)) := by
  simp only [candidates, List.mem_map, List.mem_filter]
  constructor
  · rintro ⟨c, ⟨hc, hp⟩, rfl⟩
    exact ⟨c, hc, hp, rfl⟩
  · rintro ⟨c, hc, hp, rfl⟩
    exact ⟨c, ⟨hc, hp⟩, rfl⟩

theorem candidates_code_nodup {t : ℤ} {user : UserInfo} {cart : Cart}
    {usage : String → String → ℤ} {coupons : List Coupon}
    (h : (coupons.map (fun c => c.code)).Nodup) :
    ((candidates t user cart usage coupons).map (fun p => p.1.code)).Nodup := by
  have heq : (candidates t user cart usage coupons).map (fun p => p.1.code) =
      (coupons.filter (passes t user cart usage)).map (fun c => c.code) := by
    simp [candidates, List.map_map, Function.comp]
  rw [heq]
  exact h.sublist (List.Sublist.map _ (List.filter_sublist coupons))

/-! ### Soundness of the selector -/

theorem best_coupon_sound {t : ℤ} {user : UserInfo} {cart : Cart}
    {coupons : List Coupon} {usage : String → String → ℤ} {flag : Bool}
    {r : SelectionResult}
    (h : best_coupon t user cart coupons usage flag = some r) :
    r.coupon ∈ coupons ∧
    passes t user cart usage r.coupon = true ∧
    r.computedDiscount = round2 (calculate_discount r.coupon cart) ∧
    (∀ c ∈ coupons, passes t user cart usage c = true →
      keyLt (c, round2 (calculate_discount c cart))
        (r.coupon, r.computedDiscount) = false) ∧
    r.projectedUsageForUser =
      (if flag then some (usage r.coupon.code user.userId + 1) else none) ∧
    r.usageLimitPerUser =
      (if flag then some r.coupon.usageLimitPerUser else none) := by
  rw [best_coupon] at h
  cases hp : pickBest (candidates t user cart usage coupons) with
  | none => rw [hp] at h; cases h
  | some p =>
      rw [hp] at h
      injection h with h
      obtain ⟨c, hc, hpass, hpc⟩ := mem_candidates.mp (pickBest_mem hp)
      have hcoupon : r.coupon = c := by rw [← h, hpc]
      have hdisc : r.computedDiscount = round2 (calculate_discount c cart) := by
        rw [← h, hpc]
      refine ⟨hcoupon ▸ hc, by rw [hcoupon]; exact hpass, by rw [hcoupon, hdisc], ?_, ?_, ?_⟩
      · intro c2 hc2 hp2
        have hmem : (c2, round2 (calculate_discount c2 cart)) ∈
            candidates t user cart usage coupons :=
          mem_candidates.mpr ⟨c2, hc2, hp2, rfl⟩
        have := pickBest_min hp _ hmem
        have hpair : (r.coupon, r.computedDiscount) = p := by
          rw [← h]
        rw [hpair]
        exact this
      · rw [← h]
      · rw [← h]

theorem pickBest_perm {l1 l2 : List (Coupon × ℚ)} (h : l1.Perm l2)
    (hc : (l1.map (fun p => p.1.code)).Nodup) :
    pickBest l1 = pickBest l2 := by
  cases h1 : pickBest l1 with
  | none =>
      rw [pickBest_eq_none] at h1
      subst h1
      rw [(pickBest_eq_none).mpr (List.Perm.eq_nil h.symm)]
  | some m1 =>
      cases h2 : pickBest l2 with
      | none =>
          rw [pickBest_eq_none] at h2
          subst h2
          rw [List.Perm.eq_nil h] at h1
          cases h1
      | some m2 =>
          have hm1 : m1 ∈ l1 := pickBest_mem h1
          have hm2 : m2 ∈ l1 := (h.mem_iff).mpr (pickBest_mem h2)
          have ha : keyLt m2 m1 = false := pickBest_min h1 m2 hm2
          have hb : keyLt m1 m2 = false :=
            pickBest_min h2 m1 ((h.mem_iff).mp hm1)
          obtain ⟨-, -, hcode⟩ := keyLt_total hb ha
          have := List.inj_on_of_nodup_map hc hm1 hm2 hcode
          rw [this]

theorem passes_iff {t : ℤ} {user : UserInfo} {cart : Cart}
    {usage : String → String → ℤ} {c : Coupon} :
    passes t user cart usage c = true ↔
      is_within_validity c t = true ∧
      usage c.code user.userId < c.usageLimitPerUser ∧
      check_eligibility c user cart = true ∧
      0 < calculate_discount c cart := by
  simp [passes, and_assoc]

theorem keyLt_better_iff (cart : Cart) (c1 c2 : Coupon) :
    keyLt (c1, round2 (calculate_discount c1 cart))
      (c2, round2 (calculate_discount c2 cart)) = true ↔
    Better cart c1 c2 := by
  simp [keyLt, Better]

/-! ### The claims -/

section Claims

attribute [local semireducible] Rat.mul Rat.add Rat.sub Rat.inv Rat.ofScientific

/-- C1: the spec requires `selectBest` to take the current time as an
explicit input and never read a global clock, making its result a
deterministic function of its arguments. The source's `best_coupon`
takes no time argument: it reads the module clock `now_utc()` at line
206, so the very same Python-call arguments yield different results as
the clock reading changes. This theorem evaluates the embedded code at
the failing input: identical user, cart, coupon store and usage store,
clock readings 50 and 150, different results. -/
theorem C1_result_depends_on_clock_reading :
    best_coupon 50 userU cartMain [couponFlat18] lookup0 false ≠
    best_coupon 150 userU cartMain [couponFlat18] lookup0 false := by decide

/-- C2 counterexample: `couponPct1` on `cartSmall` (total 0.30) passes
the validity, usage and eligibility checks and its discount rounded to
2 decimals is ≤ 0 (raw 0.003 rounds to 0.00), yet it becomes a
candidate and is selected — refuting the claim that a coupon whose
rounded discount is ≤ 0 is never a candidate and never selected. -/
theorem C2_counterexample :
    is_within_validity couponPct1 50 = true ∧
    lookup0 couponPct1.code userU.userId < couponPct1.usageLimitPerUser ∧
    check_eligibility couponPct1 userU cartSmall = true ∧
    round2 (calculate_discount couponPct1 cartSmall) ≤ 0 ∧
    best_coupon 50 userU cartSmall [couponPct1] lookup0 false =
      some resPct0 := by decide

/-- C2 (amended): the selector rejects on the raw, unrounded discount
(`if disc <= 0` at line 218 precedes the rounding at line 222): every
selected coupon has strictly positive raw discount, but its rounded
discount may be 0.00. -/
theorem C2_selected_raw_discount_positive (t : ℤ) (user : UserInfo)
    (cart : Cart) (coupons : List Coupon) (usage : String → String → ℤ)
    (flag : Bool) (r : SelectionResult)
    (h : best_coupon t user cart coupons usage flag = some r) :
    0 < calculate_discount r.coupon cart := by
  obtain ⟨-, hpass, -, -, -, -⟩ := best_coupon_sound h
  exact (passes_iff.mp hpass).2.2.2

/-- C2 witness: a concrete selection whose winner has positive raw
discount. -/
theorem C2_witness :
    best_coupon 50 userU cartMain [couponFlat18] lookup0 false =
      some resFlat18 ∧
    0 < calculate_discount resFlat18.coupon cartMain :=
  ⟨by decide,
    C2_selected_raw_discount_positive 50 userU cartMain [couponFlat18]
      lookup0 false resFlat18 (by decide)⟩

/-- C3: whenever `best_coupon` returns a winner, the winner is a
surviving candidate, its reported discount is the rounded discount, and
no surviving candidate is strictly better under the tie-break order
(higher rounded discount, then earlier end-date, then lexicographically
smaller code). -/
theorem C3_winner_maximal_in_tiebreak_order (t : ℤ) (user : UserInfo)
    (cart : Cart) (coupons : List Coupon) (usage : String → String → ℤ)
    (flag : Bool) (r : SelectionResult)
    (h : best_coupon t user cart coupons usage flag = some r) :
    r.coupon ∈ coupons ∧ passes t user cart usage r.coupon = true ∧
    r.computedDiscount = round2 (calculate_discount r.coupon cart) ∧
    ∀ c ∈ coupons, passes t user cart usage c = true →
      ¬ Better cart c r.coupon := by
  obtain ⟨hmem, hpass, hdisc, hmin, -, -⟩ := best_coupon_sound h
  refine ⟨hmem, hpass, hdisc, ?_⟩
  intro c hc hcp hbetter
  have hkey := hmin c hc hcp
  rw [hdisc] at hkey
  rw [(keyLt_better_iff cart c r.coupon).mpr hbetter] at hkey
  simp at hkey

/-- C3 witness: the spec §8 end-date example — flat 20.00 coupons C
(ends 60) and D (ends 70); C wins and no candidate is strictly
better. -/
theorem C3_witness :
    resFlat20C.coupon ∈ [couponFlat20D, couponFlat20C] ∧
    passes 50 userU cartMain lookup0 resFlat20C.coupon = true ∧
    resFlat20C.computedDiscount =
      round2 (calculate_discount resFlat20C.coupon cartMain) ∧
    ∀ c ∈ [couponFlat20D, couponFlat20C],
      passes 50 userU cartMain lookup0 c = true →
        ¬ Better cartMain c resFlat20C.coupon :=
  C3_winner_maximal_in_tiebreak_order 50 userU cartMain
    [couponFlat20D, couponFlat20C] lookup0 false resFlat20C (by decide)

/-- C4: with pairwise-distinct coupon codes, the selection result is
invariant under any permutation of the input coupon collection. -/
theorem C4_reorder_invariant (t : ℤ) (user : UserInfo) (cart : Cart)
    (coupons1 coupons2 : List Coupon) (usage : String → String → ℤ)
    (flag : Bool) (hperm : coupons1.Perm coupons2)
    (hcodes : (coupons1.map (fun c => c.code)).Nodup) :
    best_coupon t user cart coupons1 usage flag =
    best_coupon t user cart coupons2 usage flag := by
  have hcand : (candidates t user cart usage coupons1).Perm
      (candidates t user cart usage coupons2) := by
    unfold candidates
    exact (hperm.filter _).map _
  rw [best_coupon, best_coupon,
    pickBest_perm hcand (candidates_code_nodup hcodes)]

/-- C4 witness: the spec §8 percent-cap vs flat example in both input
orders. -/
theorem C4_witness :
    [couponPctCap, couponFlat18].Perm [couponFlat18, couponPctCap] ∧
    ([couponPctCap, couponFlat18].map (fun c => c.code)).Nodup ∧
    best_coupon 50 userU cartMain [couponPctCap, couponFlat18] lookup0
        false =
      best_coupon 50 userU cartMain [couponFlat18, couponPctCap] lookup0
        false :=
  ⟨List.Perm.swap couponFlat18 couponPctCap [], by decide,
    C4_reorder_invariant 50 userU cartMain [couponPctCap, couponFlat18]
      [couponFlat18, couponPctCap] lookup0 false
      (List.Perm.swap couponFlat18 couponPctCap []) (by decide)⟩

/-- C5: `calculate_discount` equals the spec §4.2 reference definition
and is clamped: never negative, and (for the non-negative cart totals
guaranteed by construction) never more than the cart total. -/
theorem C5_discount_matches_reference_and_clamp (coupon : Coupon)
    (cart : Cart) :
    0 ≤ calculate_discount coupon cart ∧
    (0 ≤ cart.total_value →
      calculate_discount coupon cart = computeDiscount_spec coupon cart ∧
      calculate_discount coupon cart ≤ cart.total_value) := by
  have hclamp : ∀ x T : ℚ, 0 ≤ T → max 0 (min x T) = min (max x 0) T := by
    intro x T hT
    rw [max_min_distrib_left, max_comm (0 : ℚ) x, max_eq_right hT]
  have hle : ∀ x T : ℚ, 0 ≤ T → max 0 (min x T) ≤ T := by
    intro x T hT
    exact max_le hT (min_le_right x T)
  cases hdt : coupon.discountType with
  | FLAT =>
      refine ⟨?_, fun hT => ⟨?_, ?_⟩⟩ <;>
        simp only [calculate_discount, computeDiscount_spec, hdt]
      · exact le_max_left 0 _
      · exact hclamp _ _ hT
      · exact hle _ _ hT
  | PERCENT =>
      cases hcap : coupon.maxDiscountAmount with
      | none =>
          refine ⟨?_, fun hT => ⟨?_, ?_⟩⟩ <;>
            simp only [calculate_discount, computeDiscount_spec, hdt, hcap]
          · exact le_max_left 0 _
          · exact hclamp _ _ hT
          · exact hle _ _ hT
      | some cap =>
          refine ⟨?_, fun hT => ⟨?_, ?_⟩⟩ <;>
            simp only [calculate_discount, computeDiscount_spec, hdt, hcap]
          · exact le_max_left 0 _
          · exact hclamp _ _ hT
          · exact hle _ _ hT

/-- C5 witness: the capped 10-percent coupon on the 200.00 cart. -/
theorem C5_witness :
    0 ≤ calculate_discount couponPctCap cartMain ∧
    (0 ≤ cartMain.total_value) ∧
    calculate_discount couponPctCap cartMain =
      computeDiscount_spec couponPctCap cartMain ∧
    calculate_discount couponPctCap cartMain ≤ cartMain.total_value := by
  have h := C5_discount_matches_reference_and_clamp couponPctCap cartMain
  have hT : (0 : ℚ) ≤ cartMain.total_value := by decide
  exact ⟨h.1, hT, (h.2 hT).1, (h.2 hT).2⟩

/-- C6: a coupon whose usage count for this user already reached its
per-user limit is never the selected coupon. -/
theorem C6_usage_limit_blocks_selection (t : ℤ) (user : UserInfo)
    (cart : Cart) (coupons : List Coupon) (usage : String → String → ℤ)
    (flag : Bool) (c : Coupon) (r : SelectionResult)
    (hge : c.usageLimitPerUser ≤ usage c.code user.userId)
    (h : best_coupon t user cart coupons usage flag = some r) :
    r.coupon ≠ c := by
  intro heq
  obtain ⟨-, hpass, -, -, -, -⟩ := best_coupon_sound h
  rw [heq] at hpass
  exact absurd (passes_iff.mp hpass).2.1 (not_lt.mpr hge)

/-- C6 witness: coupon "G" (limit 1, one recorded use) is in the
collection; the winner is the flat-18 coupon, not "G". -/
theorem C6_witness :
    couponG.usageLimitPerUser ≤ lookupG couponG.code userU.userId ∧
    best_coupon 50 userU cartMain [couponFlat18, couponG] lookupG false =
      some resFlat18 ∧
    resFlat18.coupon ≠ couponG :=
  ⟨by decide, by decide,
    C6_usage_limit_blocks_selection 50 userU cartMain
      [couponFlat18, couponG] lookupG false couponG resFlat18 (by decide)
      (by decide)⟩

/-- C7: the validity check fails exactly when the time is strictly
outside the inclusive `[startDate, endDate]` window; the boundary
instants pass the check; and any selected coupon satisfies
`startDate ≤ t ≤ endDate` for the evaluation time `t`. -/
theorem C7_validity_window_inclusive (coupon : Coupon) (t : ℤ) :
    (is_within_validity coupon t = false ↔
      (t < coupon.startDate ∨ coupon.endDate < t)) ∧
    (coupon.startDate ≤ coupon.endDate →
      is_within_validity coupon coupon.startDate = true ∧
      is_within_validity coupon coupon.endDate = true) ∧
    (∀ (user : UserInfo) (cart : Cart) (coupons : List Coupon)
        (usage : String → String → ℤ) (flag : Bool) (r : SelectionResult),
      best_coupon t user cart coupons usage flag = some r →
      r.coupon.startDate ≤ t ∧ t ≤ r.coupon.endDate) := by
  refine ⟨?_, ?_, ?_⟩
  · rw [is_within_validity]
    rw [decide_eq_false_iff_not]
    constructor
    · intro hn
      rcases not_and_or.mp hn with h1 | h2
      · exact Or.inl (not_le.mp h1)
      · exact Or.inr (not_le.mp h2)
    · rintro (h1 | h2) ⟨ha, hb⟩
      · exact absurd ha (not_le.mpr h1)
      · exact absurd hb (not_le.mpr h2)
  · intro hse
    constructor <;> · rw [is_within_validity, decide_eq_true_iff]
                      omega
  · intro user cart coupons usage flag r h
    obtain ⟨-, hpass, -, -, -, -⟩ := best_coupon_sound h
    have hv := (passes_iff.mp hpass).1
    rw [is_within_validity, decide_eq_true_iff] at hv
    exact hv

/-- C7 witness: the flat-18 coupon with window `[0, 100]` at time 50,
plus its two boundary instants. -/
theorem C7_witness :
    couponFlat18.startDate ≤ couponFlat18.endDate ∧
    (is_within_validity couponFlat18 couponFlat18.startDate = true ∧
      is_within_validity couponFlat18 couponFlat18.endDate = true) ∧
    best_coupon 50 userU cartMain [couponFlat18] lookup0 false =
      some resFlat18 ∧
    (resFlat18.coupon.startDate ≤ 50 ∧ 50 ≤ resFlat18.coupon.endDate) :=
  ⟨by decide, (C7_validity_window_inclusive couponFlat18 50).2.1 (by decide),
    by decide,
    (C7_validity_window_inclusive couponFlat18 50).2.2 userU cartMain
      [couponFlat18] lookup0 false resFlat18 (by decide)⟩

/-- C8: the model constructors reject every construction-time invariant
violation listed in spec §7: end-date not after start-date, non-positive
discount value, usage limit below 1, negative unit price, non-positive
quantity, negative lifetime spend, negative orders placed. -/
theorem C8_construction_rejects_invalid :
    (∀ (code : String) (dtype : DiscountType) (dval : ℚ) (cap : Option ℚ)
        (sd ed lim : ℤ) (elig : Eligibility), ed ≤ sd →
      mkCoupon code dtype dval cap sd ed lim elig = none) ∧
    (∀ (code : String) (dtype : DiscountType) (dval : ℚ) (cap : Option ℚ)
        (sd ed lim : ℤ) (elig : Eligibility), dval ≤ 0 →
      mkCoupon code dtype dval cap sd ed lim elig = none) ∧
    (∀ (code : String) (dtype : DiscountType) (dval : ℚ) (cap : Option ℚ)
        (sd ed lim : ℤ) (elig : Eligibility), lim < 1 →
      mkCoupon code dtype dval cap sd ed lim elig = none) ∧
    (∀ (pid cat : String) (price : ℚ) (qty : ℤ), price < 0 →
      mkCartItem pid cat price qty = none) ∧
    (∀ (pid cat : String) (price : ℚ) (qty : ℤ), qty ≤ 0 →
      mkCartItem pid cat price qty = none) ∧
    (∀ (uid : String) (tier country : Option String) (spend : ℚ)
        (orders : ℤ), spend < 0 →
      mkUserInfo uid tier country spend orders = none) ∧
    (∀ (uid : String) (tier country : Option String) (spend : ℚ)
        (orders : ℤ), orders < 0 →
      mkUserInfo uid tier country spend orders = none) := by
  refine ⟨?_, ?_, ?_, ?_, ?_, ?_, ?_⟩
  · intro code dtype dval cap sd ed lim elig h
    rw [mkCoupon, if_neg]
    rintro ⟨-, -, -, -, -, h6⟩
    exact absurd h6 (not_lt.mpr h)
  · intro code dtype dval cap sd ed lim elig h
    rw [mkCoupon, if_neg]
    rintro ⟨-, -, h3, -, -, -⟩
    exact absurd h3 (not_lt.mpr h)
  · intro code dtype dval cap sd ed lim elig h
    rw [mkCoupon, if_neg]
    rintro ⟨-, -, -, -, h5, -⟩
    omega
  · intro pid cat price qty h
    rw [mkCartItem, if_neg]
    rintro ⟨h1, -⟩
    exact absurd h1 (not_le.mpr h)
  · intro pid cat price qty h
    rw [mkCartItem, if_neg]
    rintro ⟨-, h2⟩
    omega
  · intro uid tier country spend orders h
    rw [mkUserInfo, if_neg]
    rintro ⟨h1, -⟩
    exact absurd h1 (not_le.mpr h)
  · intro uid tier country spend orders h
    rw [mkUserInfo, if_neg]
    rintro ⟨-, h2⟩
    omega

/-- C8 witness: one concrete rejected input per violated invariant. -/
theorem C8_witness :
    mkCoupon "A" DiscountType.FLAT 5 none 100 100 1 {} = none ∧
    mkCoupon "A" DiscountType.FLAT 0 none 0 100 1 {} = none ∧
    mkCoupon "A" DiscountType.FLAT 5 none 0 100 0 {} = none ∧
    mkCartItem "p" "x" (-1) 1 = none ∧
    mkCartItem "p" "x" 1 0 = none ∧
    mkUserInfo "u" none none (-1) 0 = none ∧
    mkUserInfo "u" none none 0 (-1) = none :=
  ⟨C8_construction_rejects_invalid.1 "A" DiscountType.FLAT 5 none 100 100 1
      {} (by decide),
    C8_construction_rejects_invalid.2.1 "A" DiscountType.FLAT 0 none 0 100 1
      {} (by decide),
    C8_construction_rejects_invalid.2.2.1 "A" DiscountType.FLAT 5 none 0 100
      0 {} (by decide),
    C8_construction_rejects_invalid.2.2.2.1 "p" "x" (-1) 1 (by decide),
    C8_construction_rejects_invalid.2.2.2.2.1 "p" "x" 1 0 (by decide),
    C8_construction_rejects_invalid.2.2.2.2.2.1 "u" none none (-1) 0
      (by decide),
    C8_construction_rejects_invalid.2.2.2.2.2.2 "u" none none 0 (-1)
      (by decide)⟩

/-- C9: an eligibility list field that is present but empty imposes no
constraint — `check_eligibility` gives the same verdict as with the
field absent, for each of the four set-valued fields. -/
theorem C9_empty_list_equals_absent (c : Coupon) (user : UserInfo)
    (cart : Cart) :
    (check_eligibility
        { c with eligibility :=
            { c.eligibility with allowedUserTiers := some [] } } user cart =
      check_eligibility
        { c with eligibility :=
            { c.eligibility with allowedUserTiers := none } } user cart) ∧
    (check_eligibility
        { c with eligibility :=
            { c.eligibility with allowedCountries := some [] } } user cart =
      check_eligibility
        { c with eligibility :=
            { c.eligibility with allowedCountries := none } } user cart) ∧
    (check_eligibility
        { c with eligibility :=
            { c.eligibility with applicableCategories := some [] } } user
          cart =
      check_eligibility
        { c with eligibility :=
            { c.eligibility with applicableCategories := none } } user
          cart) ∧
    (check_eligibility
        { c with eligibility :=
            { c.eligibility with excludedCategories := some [] } } user
          cart =
      check_eligibility
        { c with eligibility :=
            { c.eligibility with excludedCategories := none } } user cart) := by
  refine ⟨rfl, rfl, rfl, rfl⟩

/-- C10: when the projection is requested and a winner exists, the
reported projected usage is the observed count plus one, the reported
limit is the winner's limit, and the projection never exceeds that
limit. -/
theorem C10_projection_fields (t : ℤ) (user : UserInfo) (cart : Cart)
    (coupons : List Coupon) (usage : String → String → ℤ)
    (r : SelectionResult)
    (h : best_coupon t user cart coupons usage true = some r) :
    r.projectedUsageForUser = some (usage r.coupon.code user.userId + 1) ∧
    r.usageLimitPerUser = some r.coupon.usageLimitPerUser ∧
    usage r.coupon.code user.userId + 1 ≤ r.coupon.usageLimitPerUser := by
  obtain ⟨-, hpass, -, -, hproj, hlim⟩ := best_coupon_sound h
  refine ⟨by simpa using hproj, by simpa using hlim, ?_⟩
  have := (passes_iff.mp hpass).2.1
  omega

/-- C10 witness: the flat-18 selection with projection requested. -/
theorem C10_witness :
    best_coupon 50 userU cartMain [couponFlat18] lookup0 true =
      some resFlat18proj ∧
    resFlat18proj.projectedUsageForUser =
      some (lookup0 resFlat18proj.coupon.code userU.userId + 1) ∧
    resFlat18proj.usageLimitPerUser =
      some resFlat18proj.coupon.usageLimitPerUser ∧
    lookup0 resFlat18proj.coupon.code userU.userId + 1 ≤
      resFlat18proj.coupon.usageLimitPerUser :=
  ⟨by decide,
    C10_projection_fields 50 userU cartMain [couponFlat18] lookup0
      resFlat18proj (by decide)⟩

end Claims

end CouponEngine
